import Mathlib

/-!
Shallow embedding of `src/sury.py` (the SURY bulk urban-canopy
parametrization, function `sury`) over the real numbers.

The Python function takes fourteen named scalar/array parameters together
with an open-ended keyword-argument bag `**kwargs` in which twelve names
are recognized (`{Cv,lam,alb,emi}_{roof,wall,road}`).  Accessing a missing
key of a partially supplied triad raises `KeyError`, which we model with
`Option` (a `none` result).  All arithmetic is modelled over `ℝ`; the
depth argument `z` is modelled as a list of reals, evaluated element-wise
exactly as numpy broadcasting does in the source.
-/

namespace Sury

/-- Keyword-argument names.  The twelve recognized facet-override names of
`sury`, plus `other n` standing for any unrecognized keyword name that a
caller may pass through `**kwargs` (src/sury.py line 17). -/
inductive Key where
  | Cv_roof | Cv_wall | Cv_road
  | lam_roof | lam_wall | lam_road
  | alb_roof | alb_wall | alb_road
  | emi_roof | emi_wall | emi_road
  | other (n : Nat)
deriving DecidableEq

/-- Keyword-argument bag: a finite map from names to real values, modelled
as an association list (first binding wins, as in a Python dict built from
distinct keys). -/
abbrev Kwargs : Type := List (Key × ℝ)

/-- Dictionary lookup, `kwargs[k]` returning `none` when the key is absent
(Python raises `KeyError` at a `none`). -/
def lookupKw : Kwargs → Key → Option ℝ
  | [], _ => none
  | (k, v) :: rest, key => if k = key then some v else lookupKw rest key

/-- Resolution of one override triad, e.g. lines 112-113 of src/sury.py:
if any of the three keys is present the code reads all three
(`kwargs['Cv_roof']`, ...), raising `KeyError` when one is missing
(outer `none`); if none is present the triad is absent (inner `none`). -/
def triad (kw : Kwargs) (kr kw' krd : Key) : Option (Option (ℝ × ℝ × ℝ)) :=
  if (lookupKw kw kr).isSome || (lookupKw kw kw').isSome || (lookupKw kw krd).isSome then
    match lookupKw kw kr, lookupKw kw kw', lookupKw kw krd with
    | some a, some b, some c => some (some (a, b, c))
    | _, _, _ => none
  else some none

/-- The named parameters of `sury` with their Python default values
(src/sury.py lines 3-16).  The depth argument `z` is a list of depths. -/
structure SuryParams where
  alb : ℝ := 0.101
  emi : ℝ := 0.86
  lam_s : ℝ := 0.767
  Cv_s : ℝ := 1.25e6
  h : ℝ := 15
  htw : ℝ := 1.5
  roof_f : ℝ := 0.667
  z : List ℝ := [0]
  lam_soil : ℝ := 0.28
  Cv_soil : ℝ := 1.35e6
  alb_snow : ℝ := 0.70
  emi_snow : ℝ := 0.997
  snow_f : ℝ := 0
  ustar : ℝ := 0.25

/-- The dictionary returned by `sury` (src/sury.py lines 159-165). -/
structure SuryResult where
  alb_bulk : ℝ
  emi_bulk : ℝ
  lam_bulk : List ℝ
  Cv_bulk : List ℝ
  z_0 : ℝ
  kBm1 : ℝ

/-- Surface area index of a perfect canyon (src/sury.py line 109):
`SAI = (1. + 2.*htw)*(1. - roof_f) + roof_f`. -/
noncomputable def SAI (htw roof_f : ℝ) : ℝ := (1 + 2 * htw) * (1 - roof_f) + roof_f

/-- Facet-area-weighted average used for `Cv_s` and `lam_s` when a triad of
overrides is supplied (src/sury.py lines 113 and 116). -/
noncomputable def facetAvg (vroof vwall vroad htw roof_f : ℝ) : ℝ :=
  (vroof * roof_f + (vwall * 2 * htw + vroad) * (1 - roof_f)) /
    (roof_f + (2 * htw + 1) * (1 - roof_f))

/-- One element of the vertical profile blending (src/sury.py lines
126-128): `weight = min(z, h)` and then
`(1.-weight/h) * bulk_s + weight/h * soil`, evaluated element-wise. -/
noncomputable def profileAt (h bulk_s soil d : ℝ) : ℝ :=
  (1 - min d h / h) * bulk_s + min d h / h * soil

/-- Canyon view factor `psi_canyon = exp(-0.6 * htw)` (src/sury.py line 131). -/
noncomputable def psi_canyon (htw : ℝ) : ℝ := Real.exp (-0.6 * htw)

/-- Bulk view factor `psi_bulk = roof_f + (1.-roof_f)*psi_canyon`
(src/sury.py line 132). -/
noncomputable def psi_bulk (htw roof_f : ℝ) : ℝ :=
  roof_f + (1 - roof_f) * psi_canyon htw

/-- Bulk albedo, override branch (src/sury.py lines 134-138). -/
noncomputable def albBulkOverride (ar aw ad htw roof_f snow_f alb_snow : ℝ) : ℝ :=
  let alb_roof_snow := ar * (1 - snow_f) + alb_snow * snow_f
  let alb_road_snow := ad * (1 - snow_f) + alb_snow * snow_f
  let alb_wall_snow := aw * (1 - snow_f) + alb_snow * snow_f
  (alb_road_snow + 2 * htw * alb_wall_snow) / (1 + 2 * htw) * psi_canyon htw *
      (1 - roof_f) + alb_roof_snow * roof_f

/-- Bulk albedo, default branch (src/sury.py line 141). -/
noncomputable def albBulkDefault (alb alb_snow snow_f htw roof_f : ℝ) : ℝ :=
  ((1 - snow_f) * alb + snow_f * alb_snow) * psi_bulk htw roof_f

/-- Bulk emissivity, override branch (src/sury.py lines 144-148).  Note
that the source's line 145 blends the roof's thermal absorptivity with
`(1. - alb_snow)` while lines 146-147 use `(1. - emi_snow)`; the
embedding reproduces the source verbatim. -/
noncomputable def emiBulkOverride (er ew ed htw roof_f snow_f alb_snow emi_snow : ℝ) : ℝ :=
  let albth_roof_snow := (1 - er) * (1 - snow_f) + (1 - alb_snow) * snow_f
  let albth_road_snow := (1 - ed) * (1 - snow_f) + (1 - emi_snow) * snow_f
  let albth_wall_snow := (1 - ew) * (1 - snow_f) + (1 - emi_snow) * snow_f
  1 - ((albth_road_snow + 2 * htw * albth_wall_snow) / (1 + 2 * htw) *
        psi_canyon htw * (1 - roof_f) + albth_roof_snow * roof_f)

/-- Bulk emissivity, default branch (src/sury.py line 151). -/
noncomputable def emiBulkDefault (emi emi_snow snow_f htw roof_f : ℝ) : ℝ :=
  1 - psi_bulk htw roof_f * (1 - ((1 - snow_f) * emi + snow_f * emi_snow))

/-- Kinematic viscosity of air, `nu = 1.461e-5` (src/sury.py line 155). -/
noncomputable def nu : ℝ := 1.461e-5

/-- The substrate property after the optional triad override: the facet
weighted average when the triad was supplied, the scalar default
otherwise (src/sury.py lines 112-117). -/
noncomputable def resolveProp (defaultVal : ℝ) (t : Option (ℝ × ℝ × ℝ)) (htw roof_f : ℝ) : ℝ :=
  match t with
  | some (r, w, d) => facetAvg r w d htw roof_f
  | none => defaultVal

/-- The body of `sury` after all keyword lookups have succeeded: the
stages of src/sury.py lines 109-165 in source order, parameterized by the
four resolved triads. -/
noncomputable def suryCore (p : SuryParams)
    (ct lt abt emt : Option (ℝ × ℝ × ℝ)) : SuryResult :=
  let sai := SAI p.htw p.roof_f
  let cv_s := resolveProp p.Cv_s ct p.htw p.roof_f
  let lam_s := resolveProp p.lam_s lt p.htw p.roof_f
  let cv_bulk_s := sai * cv_s
  let lam_bulk_s := sai * lam_s
  let cv_bulk := p.z.map (profileAt p.h cv_bulk_s p.Cv_soil)
  let lam_bulk := p.z.map (profileAt p.h lam_bulk_s p.lam_soil)
  let alb_bulk := match abt with
    | some (r, w, d) => albBulkOverride r w d p.htw p.roof_f p.snow_f p.alb_snow
    | none => albBulkDefault p.alb p.alb_snow p.snow_f p.htw p.roof_f
  let emi_bulk := match emt with
    | some (r, w, d) =>
        emiBulkOverride r w d p.htw p.roof_f p.snow_f p.alb_snow p.emi_snow
    | none => emiBulkDefault p.emi p.emi_snow p.snow_f p.htw p.roof_f
  let z_0 := 0.075 * p.h
  let re := p.ustar * z_0 / nu
  let kBm1 := 1.29 * re ^ (0.25 : ℝ) - 2
  ⟨alb_bulk, emi_bulk, lam_bulk, cv_bulk, z_0, kBm1⟩

/-- The function `sury` (src/sury.py lines 3-165): resolve the four
override triads (a partial triad is a `KeyError`, hence `none`), then
compute the bulk parameters. -/
noncomputable def sury (p : SuryParams) (kw : Kwargs) : Option SuryResult :=
  (triad kw .Cv_roof .Cv_wall .Cv_road).bind fun ct =>
    (triad kw .lam_roof .lam_wall .lam_road).bind fun lt =>
      (triad kw .alb_roof .alb_wall .alb_road).bind fun abt =>
        (triad kw .emi_roof .emi_wall .emi_road).bind fun emt =>
          some (suryCore p ct lt abt emt)

/-- The condition under which src/sury.py line 105 prints its advisory
validity-range warning: `if htw > 2.0`.  The warning is a side effect
only; the returned dictionary is unaffected. -/
def emitsRangeWarning (p : SuryParams) : Prop := 2 < p.htw

/-- A triad of override keys is partially but not fully supplied. -/
def triadPartial (kw : Kwargs) (kr kw' krd : Key) : Prop :=
  ((lookupKw kw kr).isSome ∨ (lookupKw kw kw').isSome ∨ (lookupKw kw krd).isSome) ∧
    ¬((lookupKw kw kr).isSome ∧ (lookupKw kw kw').isSome ∧ (lookupKw kw krd).isSome)

/-- Division guarded against a zero divisor, for analysing the unguarded
`weight/h` of src/sury.py lines 127-128. -/
noncomputable def safeDiv (a b : ℝ) : Option ℝ :=
  if b = 0 then none else some (a / b)

/-- The vertical-profile blending of src/sury.py lines 126-128 with its
division `weight/h` guarded by `safeDiv`. -/
noncomputable def profileAtGuarded (h bulk_s soil d : ℝ) : Option ℝ :=
  (safeDiv (min d h) h).map fun q => (1 - q) * bulk_s + q * soil

/-- A call of `sury` with every parameter at its default value. -/
noncomputable def defaultParams : SuryParams := {}

/-- Parameters for exercising the emissivity-override branch at full snow
and full roof cover. -/
noncomputable def C1p : SuryParams := { snow_f := 1, roof_f := 1 }

/-- A complete emissivity override triad. -/
noncomputable def C1kw : Kwargs :=
  [(Key.emi_roof, 0.9), (Key.emi_wall, 0.9), (Key.emi_road, 0.9)]

/-- A partially supplied heat-capacity override triad: only `Cv_roof`. -/
noncomputable def C4kw : Kwargs := [(Key.Cv_roof, 2)]

/-- Parameters with a fully roofed surface. -/
noncomputable def C5p : SuryParams := { roof_f := 1 }

/-- Parameters with a non-default depth list and positive building height. -/
noncomputable def C3p : SuryParams := { z := [0, 7.5, 15, 30] }

/-- Parameters whose canyon height-to-width ratio exceeds the validity
range. -/
noncomputable def C8p : SuryParams := { htw := 3 }

theorem triad_of_lookups_none {kw : Kwargs} {a b c : Key}
    (ha : lookupKw kw a = none) (hb : lookupKw kw b = none)
    (hc : lookupKw kw c = none) : triad kw a b c = some none := by
  simp [triad, ha, hb, hc]

theorem triad_elim_over {kw : Kwargs} {a b c : Key} {x y z : ℝ}
    (h : triad kw a b c = some (some (x, y, z))) :
    lookupKw kw a = some x ∧ lookupKw kw b = some y ∧ lookupKw kw c = some z := by
  unfold triad at h
  split at h
  · rcases h1 : lookupKw kw a with _ | u <;> rcases h2 : lookupKw kw b with _ | v <;>
      rcases h3 : lookupKw kw c with _ | w <;>
      simp [h1, h2, h3] at h
    simp [h1, h2, h3, h.1, h.2.1, h.2.2]
  · simp at h

theorem triad_none_of_partial {kw : Kwargs} {a b c : Key}
    (h : triadPartial kw a b c) : triad kw a b c = none := by
  obtain ⟨hsome, hnot⟩ := h
  unfold triad
  rw [if_pos]
  · rcases h1 : lookupKw kw a with _ | u <;> rcases h2 : lookupKw kw b with _ | v <;>
      rcases h3 : lookupKw kw c with _ | w <;> simp_all
  · rcases hsome with h' | h' | h' <;> simp_all

theorem sury_eq_some {p : SuryParams} {kw : Kwargs}
    {ct lt abt emt : Option (ℝ × ℝ × ℝ)}
    (hct : triad kw .Cv_roof .Cv_wall .Cv_road = some ct)
    (hlt : triad kw .lam_roof .lam_wall .lam_road = some lt)
    (habt : triad kw .alb_roof .alb_wall .alb_road = some abt)
    (hemt : triad kw .emi_roof .emi_wall .emi_road = some emt) :
    sury p kw = some (suryCore p ct lt abt emt) := by
  simp [sury, hct, hlt, habt, hemt]

theorem sury_some_elim {p : SuryParams} {kw : Kwargs} {r : SuryResult}
    (h : sury p kw = some r) :
    ∃ ct lt abt emt,
      triad kw .Cv_roof .Cv_wall .Cv_road = some ct ∧
      triad kw .lam_roof .lam_wall .lam_road = some lt ∧
      triad kw .alb_roof .alb_wall .alb_road = some abt ∧
      triad kw .emi_roof .emi_wall .emi_road = some emt ∧
      r = suryCore p ct lt abt emt := by
  unfold sury at h
  rcases hct : triad kw .Cv_roof .Cv_wall .Cv_road with _ | ct <;> rw [hct] at h
  · simp at h
  rcases hlt : triad kw .lam_roof .lam_wall .lam_road with _ | lt <;> rw [hlt] at h
  · simp at h
  rcases habt : triad kw .alb_roof .alb_wall .alb_road with _ | abt <;> rw [habt] at h
  · simp at h
  rcases hemt : triad kw .emi_roof .emi_wall .emi_road with _ | emt <;> rw [hemt] at h
  · simp at h
  simp at h
  exact ⟨ct, lt, abt, emt, rfl, rfl, rfl, rfl, h.symm⟩

theorem suryCore_alb_bulk_none {p : SuryParams} {ct lt emt : Option (ℝ × ℝ × ℝ)} :
    (suryCore p ct lt none emt).alb_bulk =
      albBulkDefault p.alb p.alb_snow p.snow_f p.htw p.roof_f := rfl

theorem suryCore_alb_bulk_some {p : SuryParams} {ct lt emt : Option (ℝ × ℝ × ℝ)}
    {x y z : ℝ} : (suryCore p ct lt (some (x, y, z)) emt).alb_bulk =
      albBulkOverride x y z p.htw p.roof_f p.snow_f p.alb_snow := rfl

theorem suryCore_emi_bulk_none {p : SuryParams} {ct lt abt : Option (ℝ × ℝ × ℝ)} :
    (suryCore p ct lt abt none).emi_bulk =
      emiBulkDefault p.emi p.emi_snow p.snow_f p.htw p.roof_f := rfl

theorem suryCore_emi_bulk_some {p : SuryParams} {ct lt abt : Option (ℝ × ℝ × ℝ)}
    {x y z : ℝ} : (suryCore p ct lt abt (some (x, y, z))).emi_bulk =
      emiBulkOverride x y z p.htw p.roof_f p.snow_f p.alb_snow p.emi_snow := rfl

theorem suryCore_Cv_bulk {p : SuryParams} {ct lt abt emt : Option (ℝ × ℝ × ℝ)} :
    (suryCore p ct lt abt emt).Cv_bulk =
      p.z.map (profileAt p.h
        (SAI p.htw p.roof_f * resolveProp p.Cv_s ct p.htw p.roof_f) p.Cv_soil) := rfl

theorem suryCore_lam_bulk {p : SuryParams} {ct lt abt emt : Option (ℝ × ℝ × ℝ)} :
    (suryCore p ct lt abt emt).lam_bulk =
      p.z.map (profileAt p.h
        (SAI p.htw p.roof_f * resolveProp p.lam_s lt p.htw p.roof_f) p.lam_soil) := rfl

theorem blend_mem {a b t : ℝ} (ha0 : 0 ≤ a) (ha1 : a ≤ 1) (hb0 : 0 ≤ b) (hb1 : b ≤ 1)
    (ht0 : 0 ≤ t) (ht1 : t ≤ 1) :
    0 ≤ a * (1 - t) + b * t ∧ a * (1 - t) + b * t ≤ 1 :=
  ⟨by nlinarith, by nlinarith⟩

theorem psi_canyon_pos (htw : ℝ) : 0 < psi_canyon htw := Real.exp_pos _

theorem psi_canyon_le_one {htw : ℝ} (h : 0 ≤ htw) : psi_canyon htw ≤ 1 :=
  Real.exp_le_one_iff.mpr (by nlinarith)

theorem psi_bulk_mem {htw roof_f : ℝ} (hr0 : 0 ≤ roof_f) (hr1 : roof_f ≤ 1)
    (hh : 0 ≤ htw) : 0 ≤ psi_bulk htw roof_f ∧ psi_bulk htw roof_f ≤ 1 := by
  have h1 := psi_canyon_pos htw
  have h2 := psi_canyon_le_one hh
  unfold psi_bulk
  constructor <;> nlinarith

theorem wavg_mem {x y htw : ℝ} (hx0 : 0 ≤ x) (hx1 : x ≤ 1) (hy0 : 0 ≤ y) (hy1 : y ≤ 1)
    (hh : 0 ≤ htw) :
    0 ≤ (x + 2 * htw * y) / (1 + 2 * htw) ∧ (x + 2 * htw * y) / (1 + 2 * htw) ≤ 1 := by
  have hd : (0:ℝ) < 1 + 2 * htw := by nlinarith
  constructor
  · exact div_nonneg (by nlinarith) hd.le
  · rw [div_le_one hd]; nlinarith

theorem comb_mem {A ps B rf : ℝ} (hA0 : 0 ≤ A) (hA1 : A ≤ 1) (hp0 : 0 ≤ ps)
    (hp1 : ps ≤ 1) (hB0 : 0 ≤ B) (hB1 : B ≤ 1) (hr0 : 0 ≤ rf) (hr1 : rf ≤ 1) :
    0 ≤ A * ps * (1 - rf) + B * rf ∧ A * ps * (1 - rf) + B * rf ≤ 1 := by
  have h1 : 0 ≤ A * ps := mul_nonneg hA0 hp0
  have h2 : A * ps ≤ 1 := by nlinarith
  have h3 : A * ps * (1 - rf) ≤ 1 - rf := mul_le_of_le_one_left (by linarith) h2
  have h4 : B * rf ≤ rf := mul_le_of_le_one_left hr0 hB1
  constructor
  · have := mul_nonneg h1 (by linarith : (0:ℝ) ≤ 1 - rf)
    nlinarith [mul_nonneg hB0 hr0]
  · linarith

theorem albBulkOverride_mem {ar aw ad htw roof_f snow_f alb_snow : ℝ}
    (har : 0 ≤ ar ∧ ar ≤ 1) (haw : 0 ≤ aw ∧ aw ≤ 1) (had : 0 ≤ ad ∧ ad ≤ 1)
    (hhtw : 0 ≤ htw) (hrf : 0 ≤ roof_f ∧ roof_f ≤ 1)
    (hsf : 0 ≤ snow_f ∧ snow_f ≤ 1) (hasn : 0 ≤ alb_snow ∧ alb_snow ≤ 1) :
    0 ≤ albBulkOverride ar aw ad htw roof_f snow_f alb_snow ∧
      albBulkOverride ar aw ad htw roof_f snow_f alb_snow ≤ 1 := by
  have hAr := blend_mem har.1 har.2 hasn.1 hasn.2 hsf.1 hsf.2
  have hAw := blend_mem haw.1 haw.2 hasn.1 hasn.2 hsf.1 hsf.2
  have hAd := blend_mem had.1 had.2 hasn.1 hasn.2 hsf.1 hsf.2
  have hM := wavg_mem hAd.1 hAd.2 hAw.1 hAw.2 hhtw
  have hps := psi_canyon_pos htw
  have hps1 := psi_canyon_le_one hhtw
  have h := comb_mem hM.1 hM.2 hps.le hps1 hAr.1 hAr.2 hrf.1 hrf.2
  simpa [albBulkOverride] using h

theorem emiBulkOverride_mem {er ew ed htw roof_f snow_f alb_snow emi_snow : ℝ}
    (her : 0 ≤ er ∧ er ≤ 1) (hew : 0 ≤ ew ∧ ew ≤ 1) (hed : 0 ≤ ed ∧ ed ≤ 1)
    (hhtw : 0 ≤ htw) (hrf : 0 ≤ roof_f ∧ roof_f ≤ 1)
    (hsf : 0 ≤ snow_f ∧ snow_f ≤ 1) (hasn : 0 ≤ alb_snow ∧ alb_snow ≤ 1)
    (hesn : 0 ≤ emi_snow ∧ emi_snow ≤ 1) :
    0 ≤ emiBulkOverride er ew ed htw roof_f snow_f alb_snow emi_snow ∧
      emiBulkOverride er ew ed htw roof_f snow_f alb_snow emi_snow ≤ 1 := by
  have hAr := blend_mem (by linarith [her.2] : (0:ℝ) ≤ 1 - er) (by linarith [her.1])
    (by linarith [hasn.2] : (0:ℝ) ≤ 1 - alb_snow) (by linarith [hasn.1]) hsf.1 hsf.2
  have hAw := blend_mem (by linarith [hew.2] : (0:ℝ) ≤ 1 - ew) (by linarith [hew.1])
    (by linarith [hesn.2] : (0:ℝ) ≤ 1 - emi_snow) (by linarith [hesn.1]) hsf.1 hsf.2
  have hAd := blend_mem (by linarith [hed.2] : (0:ℝ) ≤ 1 - ed) (by linarith [hed.1])
    (by linarith [hesn.2] : (0:ℝ) ≤ 1 - emi_snow) (by linarith [hesn.1]) hsf.1 hsf.2
  have hM := wavg_mem hAd.1 hAd.2 hAw.1 hAw.2 hhtw
  have hps := psi_canyon_pos htw
  have hps1 := psi_canyon_le_one hhtw
  have h := comb_mem hM.1 hM.2 hps.le hps1 hAr.1 hAr.2 hrf.1 hrf.2
  unfold emiBulkOverride
  constructor <;> [linarith [h.2]; linarith [h.1]]

theorem albBulkDefault_mem {alb alb_snow snow_f htw roof_f : ℝ}
    (halb : 0 ≤ alb ∧ alb ≤ 1) (hasn : 0 ≤ alb_snow ∧ alb_snow ≤ 1)
    (hsf : 0 ≤ snow_f ∧ snow_f ≤ 1) (hhtw : 0 ≤ htw)
    (hrf : 0 ≤ roof_f ∧ roof_f ≤ 1) :
    0 ≤ albBulkDefault alb alb_snow snow_f htw roof_f ∧
      albBulkDefault alb alb_snow snow_f htw roof_f ≤ 1 := by
  have hpb := psi_bulk_mem hrf.1 hrf.2 hhtw
  have h1 : 0 ≤ (1 - snow_f) * alb + snow_f * alb_snow := by nlinarith
  have h2 : (1 - snow_f) * alb + snow_f * alb_snow ≤ 1 := by nlinarith
  unfold albBulkDefault
  constructor
  · exact mul_nonneg h1 hpb.1
  · nlinarith [mul_nonneg (by linarith : (0:ℝ) ≤ 1 - ((1 - snow_f) * alb + snow_f * alb_snow)) hpb.1]

theorem emiBulkDefault_mem {emi emi_snow snow_f htw roof_f : ℝ}
    (hemi : 0 ≤ emi ∧ emi ≤ 1) (hesn : 0 ≤ emi_snow ∧ emi_snow ≤ 1)
    (hsf : 0 ≤ snow_f ∧ snow_f ≤ 1) (hhtw : 0 ≤ htw)
    (hrf : 0 ≤ roof_f ∧ roof_f ≤ 1) :
    0 ≤ emiBulkDefault emi emi_snow snow_f htw roof_f ∧
      emiBulkDefault emi emi_snow snow_f htw roof_f ≤ 1 := by
  have hpb := psi_bulk_mem hrf.1 hrf.2 hhtw
  have h1 : 0 ≤ (1 - snow_f) * emi + snow_f * emi_snow := by nlinarith
  have h2 : (1 - snow_f) * emi + snow_f * emi_snow ≤ 1 := by nlinarith
  have h3 : 0 ≤ psi_bulk htw roof_f * (1 - ((1 - snow_f) * emi + snow_f * emi_snow)) :=
    mul_nonneg hpb.1 (by linarith)
  have h4 : psi_bulk htw roof_f * (1 - ((1 - snow_f) * emi + snow_f * emi_snow)) ≤ 1 := by
    nlinarith [mul_nonneg (by linarith : (0:ℝ) ≤ 1 - psi_bulk htw roof_f) (by linarith : (0:ℝ) ≤ 1 - ((1 - snow_f) * emi + snow_f * emi_snow))]
  unfold emiBulkDefault
  constructor <;> linarith

theorem profileAt_zero {h : ℝ} (hh : 0 < h) (s soil : ℝ) : profileAt h s soil 0 = s := by
  unfold profileAt
  rw [min_eq_left hh.le, zero_div]
  ring

theorem profileAt_deep {h d : ℝ} (hh : 0 < h) (hd : h ≤ d) (s soil : ℝ) :
    profileAt h s soil d = soil := by
  unfold profileAt
  rw [min_eq_right hd, div_self hh.ne.symm]
  ring

theorem lookupKw_skip_other (kw1 kw2 : Kwargs) (n : Nat) (v : ℝ) (key : Key)
    (hk : ∀ m, key ≠ Key.other m) :
    lookupKw (kw1 ++ (Key.other n, v) :: kw2) key = lookupKw (kw1 ++ kw2) key := by
  induction kw1 with
  | nil =>
      simp only [List.nil_append, lookupKw]
      rw [if_neg fun h => hk n h.symm]
  | cons head tail ih =>
      obtain ⟨k, w⟩ := head
      simp only [List.cons_append, lookupKw]
      split <;> simp [ih]

theorem triad_skip_other (kw1 kw2 : Kwargs) (n : Nat) (v : ℝ) (a b c : Key)
    (ha : ∀ m, a ≠ Key.other m) (hb : ∀ m, b ≠ Key.other m)
    (hc : ∀ m, c ≠ Key.other m) :
    triad (kw1 ++ (Key.other n, v) :: kw2) a b c = triad (kw1 ++ kw2) a b c := by
  unfold triad
  rw [lookupKw_skip_other kw1 kw2 n v a ha, lookupKw_skip_other kw1 kw2 n v b hb,
    lookupKw_skip_other kw1 kw2 n v c hc]

/-- Claim C1 (code bug evidence): with full snow cover, full roof fraction and a
complete emissivity override triad, the code's emissivity branch returns
`emi_bulk = 0.7` — the value produced by line 145's `(1. - alb_snow)` roof
blend — and not the `0.997 = 1 - (1 - emi_snow)` that the claim's uniform
`(1 - emi_snow)` blend for all three facets would give. -/
theorem C1_roof_snow_blend_mismatch :
    ∃ r, sury C1p C1kw = some r ∧ r.emi_bulk = 0.7 ∧ r.emi_bulk ≠ 0.997 := by
  have h2 : (suryCore C1p none none none (some (0.9, 0.9, 0.9))).emi_bulk = 0.7 := by
    rw [suryCore_emi_bulk_some]
    simp only [C1p]
    unfold emiBulkOverride
    ring_nf
  exact ⟨_, rfl, h2, by rw [h2]; norm_num⟩

/-- Claim C2: whenever the substrate albedo/emissivity, the snow
albedo/emissivity, every supplied per-facet albedo/emissivity override, and the
roof and snow fractions each lie in [0,1] and the height-to-width ratio is
nonnegative, the returned `alb_bulk` and `emi_bulk` lie in [0,1], in both the
override and the no-override branches. -/
theorem C2_radiative_bounds (p : SuryParams) (kw : Kwargs) (r : SuryResult)
    (halb : 0 ≤ p.alb ∧ p.alb ≤ 1) (hemi : 0 ≤ p.emi ∧ p.emi ≤ 1)
    (hasn : 0 ≤ p.alb_snow ∧ p.alb_snow ≤ 1) (hesn : 0 ≤ p.emi_snow ∧ p.emi_snow ≤ 1)
    (hrf : 0 ≤ p.roof_f ∧ p.roof_f ≤ 1) (hsf : 0 ≤ p.snow_f ∧ p.snow_f ≤ 1)
    (hhtw : 0 ≤ p.htw)
    (hov : ∀ k v, (k = Key.alb_roof ∨ k = Key.alb_wall ∨ k = Key.alb_road ∨
        k = Key.emi_roof ∨ k = Key.emi_wall ∨ k = Key.emi_road) →
        lookupKw kw k = some v → 0 ≤ v ∧ v ≤ 1)
    (hr : sury p kw = some r) :
    (0 ≤ r.alb_bulk ∧ r.alb_bulk ≤ 1) ∧ (0 ≤ r.emi_bulk ∧ r.emi_bulk ≤ 1) := by
  obtain ⟨ct, lt, abt, emt, hct, hlt, habt, hemt, hr'⟩ := sury_some_elim hr
  subst hr'
  constructor
  · rcases abt with _ | ⟨x, y, z⟩
    · rw [suryCore_alb_bulk_none]
      exact albBulkDefault_mem halb hasn hsf hhtw hrf
    · obtain ⟨l1, l2, l3⟩ := triad_elim_over habt
      have hx := hov _ _ (Or.inl rfl) l1
      have hy := hov _ _ (Or.inr (Or.inl rfl)) l2
      have hz := hov _ _ (Or.inr (Or.inr (Or.inl rfl))) l3
      rw [suryCore_alb_bulk_some]
      exact albBulkOverride_mem hx hy hz hhtw hrf hsf hasn
  · rcases emt with _ | ⟨x, y, z⟩
    · rw [suryCore_emi_bulk_none]
      exact emiBulkDefault_mem hemi hesn hsf hhtw hrf
    · obtain ⟨l1, l2, l3⟩ := triad_elim_over hemt
      have hx := hov _ _ (Or.inr (Or.inr (Or.inr (Or.inl rfl)))) l1
      have hy := hov _ _ (Or.inr (Or.inr (Or.inr (Or.inr (Or.inl rfl))))) l2
      have hz := hov _ _ (Or.inr (Or.inr (Or.inr (Or.inr (Or.inr rfl))))) l3
      rw [suryCore_emi_bulk_some]
      exact emiBulkOverride_mem hx hy hz hhtw hrf hsf hasn hesn

/-- Claim C2, witness: the bounds hold at the default parameters with an empty
keyword bag. -/
theorem C2_radiative_bounds_witness :
    (0 ≤ (suryCore defaultParams none none none none).alb_bulk ∧
      (suryCore defaultParams none none none none).alb_bulk ≤ 1) ∧
    (0 ≤ (suryCore defaultParams none none none none).emi_bulk ∧
      (suryCore defaultParams none none none none).emi_bulk ≤ 1) :=
  C2_radiative_bounds defaultParams [] (suryCore defaultParams none none none none)
    (by norm_num [defaultParams]) (by norm_num [defaultParams])
    (by norm_num [defaultParams]) (by norm_num [defaultParams])
    (by norm_num [defaultParams]) (by norm_num [defaultParams])
    (by norm_num [defaultParams])
    (by intro k v _ h; simp [lookupKw] at h)
    rfl

/-- Claim C3: for positive building height the depth profiles are each depth's
own blend `profileAt` mapped over the depth list (hence one output value per
input depth, positional independence), with value `SAI * Cv_s` (resp.
`SAI * lam_s`) at depth 0 and the soil value at every depth at or below the
building height. -/
theorem C3_profile_elementwise (p : SuryParams) (kw : Kwargs)
    (ct lt abt emt : Option (ℝ × ℝ × ℝ)) (hh : 0 < p.h)
    (hct : triad kw Key.Cv_roof Key.Cv_wall Key.Cv_road = some ct)
    (hlt : triad kw Key.lam_roof Key.lam_wall Key.lam_road = some lt)
    (habt : triad kw Key.alb_roof Key.alb_wall Key.alb_road = some abt)
    (hemt : triad kw Key.emi_roof Key.emi_wall Key.emi_road = some emt) :
    ∃ r, sury p kw = some r ∧
      r.Cv_bulk = p.z.map (profileAt p.h
        (SAI p.htw p.roof_f * resolveProp p.Cv_s ct p.htw p.roof_f) p.Cv_soil) ∧
      r.lam_bulk = p.z.map (profileAt p.h
        (SAI p.htw p.roof_f * resolveProp p.lam_s lt p.htw p.roof_f) p.lam_soil) ∧
      r.Cv_bulk.length = p.z.length ∧
      r.lam_bulk.length = p.z.length ∧
      (∀ s soil : ℝ, profileAt p.h s soil 0 = s) ∧
      (∀ s soil d : ℝ, p.h ≤ d → profileAt p.h s soil d = soil) := by
  refine ⟨suryCore p ct lt abt emt, sury_eq_some hct hlt habt hemt,
    suryCore_Cv_bulk, suryCore_lam_bulk, ?_, ?_,
    fun s soil => profileAt_zero hh s soil,
    fun s soil d hd => profileAt_deep hh hd s soil⟩
  · rw [suryCore_Cv_bulk, List.length_map]
  · rw [suryCore_lam_bulk, List.length_map]

/-- Claim C3, witness: the profile properties at the depth list
`[0, 7.5, 15, 30]` with the default building height 15. -/
theorem C3_profile_elementwise_witness :
    ∃ r, sury C3p [] = some r ∧
      r.Cv_bulk = C3p.z.map (profileAt C3p.h
        (SAI C3p.htw C3p.roof_f * resolveProp C3p.Cv_s none C3p.htw C3p.roof_f) C3p.Cv_soil) ∧
      r.lam_bulk = C3p.z.map (profileAt C3p.h
        (SAI C3p.htw C3p.roof_f * resolveProp C3p.lam_s none C3p.htw C3p.roof_f) C3p.lam_soil) ∧
      r.Cv_bulk.length = C3p.z.length ∧
      r.lam_bulk.length = C3p.z.length ∧
      (∀ s soil : ℝ, profileAt C3p.h s soil 0 = s) ∧
      (∀ s soil d : ℝ, C3p.h ≤ d → profileAt C3p.h s soil d = soil) :=
  C3_profile_elementwise C3p [] none none none none (by norm_num [C3p]) rfl rfl rfl rfl

/-- Claim C4: when any override triad is partially but not fully supplied, the
keyword lookup faults and `sury` returns no result. -/
theorem C4_partial_triad_error (p : SuryParams) (kw : Kwargs)
    (h : triadPartial kw Key.Cv_roof Key.Cv_wall Key.Cv_road ∨
      triadPartial kw Key.lam_roof Key.lam_wall Key.lam_road ∨
      triadPartial kw Key.alb_roof Key.alb_wall Key.alb_road ∨
      triadPartial kw Key.emi_roof Key.emi_wall Key.emi_road) :
    sury p kw = none := by
  rcases h with h | h | h | h
  · simp [sury, triad_none_of_partial h]
  · rcases hct : triad kw Key.Cv_roof Key.Cv_wall Key.Cv_road with _ | ct <;>
      simp [sury, hct, triad_none_of_partial h]
  · rcases hct : triad kw Key.Cv_roof Key.Cv_wall Key.Cv_road with _ | ct <;>
      rcases hlt : triad kw Key.lam_roof Key.lam_wall Key.lam_road with _ | lt <;>
      simp [sury, hct, hlt, triad_none_of_partial h]
  · rcases hct : triad kw Key.Cv_roof Key.Cv_wall Key.Cv_road with _ | ct <;>
      rcases hlt : triad kw Key.lam_roof Key.lam_wall Key.lam_road with _ | lt <;>
      rcases habt : triad kw Key.alb_roof Key.alb_wall Key.alb_road with _ | abt <;>
      simp [sury, hct, hlt, habt, triad_none_of_partial h]

/-- Claim C4, witness: supplying only `Cv_roof` makes `sury` fail. -/
theorem C4_partial_triad_error_witness : sury defaultParams C4kw = none :=
  C4_partial_triad_error defaultParams C4kw
    (Or.inl (by constructor <;> simp [C4kw, lookupKw]))

/-- Claim C5: with roof fraction 1 and no per-facet albedo overrides, the
returned bulk albedo is exactly `(1 - snow_f) * alb + snow_f * alb_snow`, for
any height-to-width ratio. -/
theorem C5_full_roof_alb_bulk (p : SuryParams) (kw : Kwargs) (r : SuryResult)
    (hrf : p.roof_f = 1)
    (h1 : lookupKw kw Key.alb_roof = none) (h2 : lookupKw kw Key.alb_wall = none)
    (h3 : lookupKw kw Key.alb_road = none)
    (hr : sury p kw = some r) :
    r.alb_bulk = (1 - p.snow_f) * p.alb + p.snow_f * p.alb_snow := by
  obtain ⟨ct, lt, abt, emt, hct, hlt, habt, hemt, hr'⟩ := sury_some_elim hr
  have habt' : abt = none := by
    have h := triad_of_lookups_none h1 h2 h3
    rw [habt] at h
    exact Option.some_inj.mp h
  subst hr'
  subst habt'
  rw [suryCore_alb_bulk_none]
  unfold albBulkDefault psi_bulk
  rw [hrf]
  ring

/-- Claim C5, witness: fully roofed surface at otherwise default parameters. -/
theorem C5_full_roof_alb_bulk_witness :
    (suryCore C5p none none none none).alb_bulk =
      (1 - C5p.snow_f) * C5p.alb + C5p.snow_f * C5p.alb_snow :=
  C5_full_roof_alb_bulk C5p [] (suryCore C5p none none none none) rfl rfl rfl rfl rfl

/-- Claim C6: when the roof fraction equals 1, the Stage 1 surface area index
`SAI = (1 + 2*htw)*(1 - roof_f) + roof_f` equals 1 for every height-to-width
ratio. -/
theorem C6_SAI_full_roof (htw roof_f : ℝ) (h : roof_f = 1) : SAI htw roof_f = 1 := by
  subst h
  unfold SAI
  ring

/-- Claim C6, witness: `SAI 5 1 = 1`. -/
theorem C6_SAI_full_roof_witness : SAI 5 1 = 1 := C6_SAI_full_roof 5 1 rfl

/-- Claim C7: `psi_canyon = exp(-0.6*htw)` is strictly decreasing in the
height-to-width ratio. -/
theorem C7_psi_canyon_strict_anti (htw1 htw2 : ℝ) (h : htw1 < htw2) :
    psi_canyon htw2 < psi_canyon htw1 := by
  unfold psi_canyon
  exact Real.exp_lt_exp.mpr (by linarith)

/-- Claim C7, witness: `psi_canyon 2 < psi_canyon 1`. -/
theorem C7_psi_canyon_strict_anti_witness : psi_canyon 2 < psi_canyon 1 :=
  C7_psi_canyon_strict_anti 1 2 one_lt_two

/-- Claim C8: the advisory warning condition of line 105 holds exactly when
`htw > 2`, and for such inputs with complete-or-absent triads `sury` still
returns the full result computed by the same formulas (`suryCore`), never
aborting. -/
theorem C8_htw_warning_nonfatal (p : SuryParams) (kw : Kwargs)
    (ct lt abt emt : Option (ℝ × ℝ × ℝ)) (h2 : 2 < p.htw)
    (hct : triad kw Key.Cv_roof Key.Cv_wall Key.Cv_road = some ct)
    (hlt : triad kw Key.lam_roof Key.lam_wall Key.lam_road = some lt)
    (habt : triad kw Key.alb_roof Key.alb_wall Key.alb_road = some abt)
    (hemt : triad kw Key.emi_roof Key.emi_wall Key.emi_road = some emt) :
    emitsRangeWarning p ∧ sury p kw = some (suryCore p ct lt abt emt) :=
  ⟨h2, sury_eq_some hct hlt habt hemt⟩

/-- Claim C8, witness: at `htw = 3` the warning fires and the computation still
returns its full result. -/
theorem C8_htw_warning_nonfatal_witness :
    emitsRangeWarning C8p ∧ sury C8p [] = some (suryCore C8p none none none none) :=
  C8_htw_warning_nonfatal C8p [] none none none none (by norm_num [C8p])
    rfl rfl rfl rfl

/-- Claim C9: inserting a keyword argument whose name is not one of the twelve
recognized facet-override names anywhere into the keyword bag leaves the
result of `sury` unchanged (and in particular raises no error). -/
theorem C9_unrecognized_kwarg_ignored (p : SuryParams) (kw1 kw2 : Kwargs)
    (n : Nat) (v : ℝ) :
    sury p (kw1 ++ (Key.other n, v) :: kw2) = sury p (kw1 ++ kw2) := by
  unfold sury
  rw [triad_skip_other kw1 kw2 n v Key.Cv_roof Key.Cv_wall Key.Cv_road
      (fun _ h => Key.noConfusion h) (fun _ h => Key.noConfusion h)
      (fun _ h => Key.noConfusion h),
    triad_skip_other kw1 kw2 n v Key.lam_roof Key.lam_wall Key.lam_road
      (fun _ h => Key.noConfusion h) (fun _ h => Key.noConfusion h)
      (fun _ h => Key.noConfusion h),
    triad_skip_other kw1 kw2 n v Key.alb_roof Key.alb_wall Key.alb_road
      (fun _ h => Key.noConfusion h) (fun _ h => Key.noConfusion h)
      (fun _ h => Key.noConfusion h),
    triad_skip_other kw1 kw2 n v Key.emi_roof Key.emi_wall Key.emi_road
      (fun _ h => Key.noConfusion h) (fun _ h => Key.noConfusion h)
      (fun _ h => Key.noConfusion h)]

/-- Claim C10: the vertical-profile blending divides by the building height
with no guard; under the precondition `0 < h` the guarded embedding of that
division never takes its error branch and agrees with the unguarded code,
while at `h = 0` the guarded division faults. -/
theorem C10_division_guard (h s soil d : ℝ) :
    (0 < h → profileAtGuarded h s soil d = some (profileAt h s soil d)) ∧
    (h = 0 → profileAtGuarded h s soil d = none) := by
  constructor
  · intro hh
    unfold profileAtGuarded safeDiv profileAt
    rw [if_neg hh.ne.symm]
    rfl
  · intro hh
    unfold profileAtGuarded safeDiv
    rw [if_pos hh]
    rfl

/-- Claim C10, witness: at building height 15 and depth 3 the guarded division
agrees with the unguarded profile value. -/
theorem C10_division_guard_witness :
    profileAtGuarded 15 5 7 3 = some (profileAt 15 5 7 3) :=
  (C10_division_guard 15 5 7 3).1 (by norm_num)

end Sury
